import Mathlib

/-!
Shallow embedding of the diagnostic pipelines of `src/app.py` (a Streamlit
brain-tumor application) and proofs of the spec's claims about them.

The embedded pieces are:
* the fixed `categories` list and the static `symptoms` table;
* `preprocess_image` (RGB conversion, resize to 150x150, division by 255,
  leading batch dimension);
* `predict` (model inference wrapped in try/except, `np.max` / `np.argmax`);
* the LIME `explain_prediction` input tensor (resized image WITHOUT the
  division by 255);
* `is_valid_mri` (DICOM parse with modality check, generic image fallback);
* the "Diagnosis Test" branch (per-condition percentage scoring with its
  tie / no-match / empty-selection signals);
* the "Tumor Detection" branch's downstream staging after `predict`.

Machine floats are modelled as rationals; numpy arrays as nested lists;
Python exceptions as `Except`; Streamlit warnings/errors as explicit values.
-/

namespace BrainTumorApp

/-- `categories = ["glioma", "meningioma", "no tumor", "pituitary"]`
(src/app.py line 32). -/
def categories : List String := ["glioma", "meningioma", "no tumor", "pituitary"]

/-- The static symptom table (src/app.py lines 34-65): condition name paired
with its ordered list of symptom strings, in the dict's insertion order. -/
def symptoms : List (String × List String) :=
  [("Glioma",
    ["Headaches",
     "Seizures",
     "Vision problems",
     "Nausea and vomiting",
     "Difficulty with balance and coordination",
     "Changes in personality or behavior",
     "Weakness or numbness in limbs"]),
   ("Meningioma",
    ["Headaches",
     "Seizures",
     "Vision changes",
     "Hearing loss or ringing in the ears",
     "Nausea and vomiting",
     "Weakness or numbness",
     "Difficulty with speech or movement"]),
   ("No Tumor",
    ["No specific symptoms related to a tumor; symptoms are typically related to other conditions."]),
   ("Pituitary Tumor",
    ["Headaches",
     "Vision problems",
     "Unexplained weight gain or loss",
     "Changes in menstrual cycle or sexual function",
     "Growth of hands and feet (in case of acromegaly)",
     "Fatigue",
     "Changes in mood or cognitive functions"])]

/-- Maximum of a list of rationals, as `np.max` / Python's builtin `max`
compute it on a non-empty collection (left fold of binary max over the
elements). On the empty list (where numpy/Python would raise) it returns 0;
no claim depends on that value. -/
def listMax : List ℚ → ℚ
  | [] => 0
  | a :: t => t.foldl max a

/-- `np.argmax`: index of the first occurrence of the maximum. -/
def npArgmax (l : List ℚ) : Nat := l.findIdx fun x => decide (x = listMax l)

/-- `match_count = sum(1 for symptom in selected_symptoms if symptom in symptom_list)`
(src/app.py line 196). -/
def match_count (selected_symptoms symptom_list : List String) : Nat :=
  (selected_symptoms.filter fun s => symptom_list.contains s).length

/-- `probability = (match_count / len(symptom_list)) * 100` (src/app.py line 197). -/
def probabilityOf (selected_symptoms symptom_list : List String) : ℚ :=
  ((match_count selected_symptoms symptom_list : ℚ) / (symptom_list.length : ℚ)) * 100

/-- The `probabilities` dict after the scoring loop (src/app.py lines 193-198):
initialised with every condition at 0, then each condition's entry is set to
its percentage, so the result is the table mapped through `probabilityOf`. -/
def probabilities (selected_symptoms : List String) : List (String × ℚ) :=
  symptoms.map fun cs => (cs.1, probabilityOf selected_symptoms cs.2)

/-- Which `st.warning` the Diagnosis branch emits after printing the
percentages (src/app.py lines 205-208). -/
inductive DiagnosisSignal where
  /-- "There may be a clash between multiple conditions. Please consult a doctor." -/
  | clash : DiagnosisSignal
  /-- "No matching conditions found. Please consult a doctor for further evaluation." -/
  | noMatch : DiagnosisSignal
  /-- no warning: a single condition attains the (positive) maximum. -/
  | noWarning : DiagnosisSignal
deriving DecidableEq

/-- Outcome of pressing "Diagnose" (src/app.py lines 187-208). -/
inductive DiagnoseResult where
  /-- "Please select at least one symptom." — rejected before scoring,
  no percentages are computed on this path. -/
  | selectAtLeastOne : DiagnoseResult
  /-- percentages were computed and displayed for every condition,
  together with the warning signal (if any). -/
  | scored : List (String × ℚ) → DiagnosisSignal → DiagnoseResult
deriving DecidableEq

/-- The Diagnosis Test branch (src/app.py lines 187-208): reject an empty
selection; otherwise score every condition, take the maximum percentage,
warn "clash" when more than one condition attains it, otherwise warn
"no match" when the maximum is zero. -/
def diagnose (selected_symptoms : List String) : DiagnoseResult :=
  if selected_symptoms.isEmpty then .selectAtLeastOne
  else
    let probs := probabilities selected_symptoms
    let max_prob := listMax (probs.map Prod.snd)
    if 1 < (probs.map Prod.snd).count max_prob then .scored probs .clash
    else if max_prob = 0 then .scored probs .noMatch
    else .scored probs .noWarning

/-- `predict` (src/app.py lines 99-108), as a function of the outcome of
`model.predict` on the preprocessed tensor: on success take
`np.max` as the confidence and index `categories` at `np.argmax`; any
exception in the try block (inference failure, empty output, index out of
range) is caught and reported via `st.error`, returning `(None, None)`.
The first component is the returned `(tumor_type, confidence)` pair, the
second is the `st.error` message, if any. -/
def predictRun (model_output : Except String (List ℚ)) :
    (Option String × Option ℚ) × Option String :=
  match model_output with
  | .error e => ((none, none), some ("Error in prediction: " ++ e))
  | .ok predictions =>
    if predictions.isEmpty then
      ((none, none), some "Error in prediction: zero-size array to reduction operation")
    else
      match categories[npArgmax predictions]? with
      | some tumor_type => ((some tumor_type, some (listMax predictions)), none)
      | none => ((none, none), some "Error in prediction: list index out of range")

/-- Downstream stages of the Tumor Detection branch (src/app.py lines 219-227). -/
inductive Stage where
  /-- `st.write(f"Prediction: ...")` -/
  | showPrediction : Stage
  /-- `explain_prediction(image, model)` (LIME overlay) -/
  | explanation : Stage
  /-- `get_tumor_info(prediction)` (Wikipedia lookup) -/
  | tumorInfo : Stage
  /-- `speak_text(tumor_info)` (text-to-speech) -/
  | speech : Stage
deriving DecidableEq

/-- The Tumor Detection branch after pressing "Predict"
(src/app.py lines 219-227): run `predict`, then — only `if prediction:` is
truthy (not `None` and not the empty string) — show the prediction, the LIME
explanation, the encyclopedia text, and speak it. -/
def tumorDetectionStages (model_output : Except String (List ℚ)) : List Stage :=
  match (predictRun model_output).1.1 with
  | some prediction =>
    if prediction = "" then []
    else [.showPrediction, .explanation, .tumorInfo, .speech]
  | none => []

/-- A decoded PIL image. `width`/`height` are the spatial dimensions, `mode`
the PIL colour mode string. `px x y c` is the 8-bit intensity of channel `c`
(0 = R, 1 = G, 2 = B) at column `x`, row `y`, with the channel data stored
as the image would read after RGB conversion (so `convert("RGB")` below only
retags the mode); the function is total, out-of-range coordinates being
irrelevant to every use at the stored dimensions. -/
structure PILImage where
  width : Nat
  height : Nat
  mode : String
  px : Nat → Nat → Fin 3 → Fin 256

/-- `image.convert("RGB") if image.mode != "RGB"` (src/app.py lines 77-78). -/
def convertRGB (image : PILImage) : PILImage :=
  if image.mode = "RGB" then image else { image with mode := "RGB" }

/-- `image.resize((w, h))` (src/app.py lines 79 and 115), modelled with
nearest-neighbour sampling — the spec leaves the resampling filter
unspecified ("any reasonable resampling filter"). -/
def resize (image : PILImage) (w h : Nat) : PILImage :=
  { width := w, height := h, mode := image.mode,
    px := fun x y c => image.px (x * image.width / w) (y * image.height / h) c }

/-- `np.array(img) / 255.0` (src/app.py line 80): height x width x 3 nested
list, each 8-bit channel value divided by 255. -/
def npArrayDiv255 (image : PILImage) : List (List (List ℚ)) :=
  (List.range image.height).map fun y =>
    (List.range image.width).map fun x =>
      [((image.px x y 0 : ℕ) : ℚ) / 255,
       ((image.px x y 1 : ℕ) : ℚ) / 255,
       ((image.px x y 2 : ℕ) : ℚ) / 255]

/-- `np.array(img)` with raw 8-bit values (src/app.py line 115): as
`npArrayDiv255` but WITHOUT the division by 255. -/
def npArrayRaw (image : PILImage) : List (List (List ℚ)) :=
  (List.range image.height).map fun y =>
    (List.range image.width).map fun x =>
      [((image.px x y 0 : ℕ) : ℚ),
       ((image.px x y 1 : ℕ) : ℚ),
       ((image.px x y 2 : ℕ) : ℚ)]

/-- `preprocess_image` (src/app.py lines 76-82): force RGB, resize to
150x150, divide by 255, `np.expand_dims(..., axis=0)` — the outer
singleton list is the leading batch dimension. -/
def preprocess_image (image : PILImage) : List (List (List (List ℚ))) :=
  [npArrayDiv255 (resize (convertRGB image) 150 150)]

/-- The tensor `explain_prediction` hands to `model.predict` through LIME
(src/app.py line 115): `np.array(image.resize((150, 150)))` — resized but
neither converted by `preprocess_image`'s RGB step nor divided by 255. -/
def explain_input (image : PILImage) : List (List (List ℚ)) :=
  npArrayRaw (resize image 150 150)

/-- Shape check for a rank-4 nested-list tensor. -/
def hasShape4 (t : List (List (List (List ℚ)))) (n₀ n₁ n₂ n₃ : Nat) : Bool :=
  (t.length == n₀) && t.all fun p =>
    (p.length == n₁) && p.all fun r =>
      (r.length == n₂) && r.all fun q => q.length == n₃

/-- Range check: every element of the rank-4 tensor lies in [0, 1]. -/
def allIn01 (t : List (List (List (List ℚ)))) : Bool :=
  t.all fun p => p.all fun r => r.all fun q =>
    q.all fun v => decide (0 ≤ v) && decide (v ≤ 1)

/-- Entry of a rank-3 nested-list tensor at row `y`, column `x`, channel `k`
(0 outside the tensor). -/
def entry3 (t : List (List (List ℚ))) (y x k : Nat) : ℚ :=
  ((t.getD y []).getD x []).getD k 0

/-- A constant all-(7,7,7) RGB test image. -/
def constImage : PILImage :=
  { width := 1, height := 1, mode := "RGB", px := fun _ _ _ => (7 : Fin 256) }

/-- An uploaded file, seen through the two decode attempts `is_valid_mri`
makes. `dicomModality` is the outcome of the try block around
`pydicom.dcmread(file, force=True)` followed by the `.Modality` attribute
read: `.ok m` when both succeed with modality string `m`, `.error e` when
either raises (unparsable container or missing modality tag).
`imageDecode` is the outcome of `PIL.Image.open(file)`. -/
structure UploadFile where
  dicomModality : Except String String
  imageDecode : Except String Unit

/-- `is_valid_mri` (src/app.py lines 85-96): accept when the DICOM parse
succeeds with modality "MR"; if the DICOM try block raises, fall back to a
generic image decode and accept any decodable image; when both fail, emit
the `st.warning` and reject. A successful DICOM parse whose modality is not
"MR" raises nothing, so it skips the fallback and rejects silently.
The first component is the returned boolean, the second the warning, if
any. The function is total: no failure escapes it. -/
def is_valid_mri (file : UploadFile) : Bool × Option String :=
  match file.dicomModality with
  | .ok m => if m = "MR" then (true, none) else (false, none)
  | .error _ =>
    match file.imageDecode with
    | .ok _ => (true, none)
    | .error e => (false, some ("Image validation failed: " ++ e))

end BrainTumorApp

namespace BrainTumorApp

/-- An initial accumulator is below the left fold of binary max. -/
lemma le_foldl_max (t : List ℚ) (a : ℚ) : a ≤ t.foldl max a := by
  induction t generalizing a with
  | nil => exact le_refl a
  | cons b t ih => exact le_trans (le_max_left a b) (ih (max a b))

/-- The left fold of binary max is the accumulator or one of the elements. -/
lemma foldl_max_mem (t : List ℚ) (a : ℚ) : t.foldl max a = a ∨ t.foldl max a ∈ t := by
  induction t generalizing a with
  | nil => exact Or.inl rfl
  | cons b t ih =>
    rw [List.foldl_cons]
    rcases ih (max a b) with h | h
    · rcases max_choice a b with hm | hm
      · exact Or.inl (h.trans hm)
      · exact Or.inr (by rw [h, hm]; exact List.mem_cons_self b t)
    · exact Or.inr (List.mem_cons_of_mem b h)

/-- Every element is below the left fold of binary max. -/
lemma mem_le_foldl_max (t : List ℚ) (a x : ℚ) (hx : x ∈ t) : x ≤ t.foldl max a := by
  induction t generalizing a with
  | nil => cases hx
  | cons b t ih =>
    rw [List.foldl_cons]
    rcases List.mem_cons.mp hx with rfl | h
    · exact le_trans (le_max_right a x) (le_foldl_max t (max a x))
    · exact ih (max a b) h

/-- On a non-empty list, `listMax` is one of the elements. -/
lemma listMax_mem : ∀ (l : List ℚ), l ≠ [] → listMax l ∈ l
  | [], h => absurd rfl h
  | a :: t, _ => by
    show t.foldl max a ∈ a :: t
    rcases foldl_max_mem t a with h1 | h1
    · rw [h1]; exact List.mem_cons_self a t
    · exact List.mem_cons_of_mem a h1

/-- `listMax` is an upper bound of the list. -/
lemma le_listMax : ∀ (l : List ℚ), ∀ x ∈ l, x ≤ listMax l
  | a :: t, x, hx => by
    show x ≤ t.foldl max a
    rcases List.mem_cons.mp hx with rfl | h
    · exact le_foldl_max t x
    · exact mem_le_foldl_max t a x h

/-- `np.argmax` lands inside a non-empty list. -/
lemma npArgmax_lt_length (l : List ℚ) (h : l ≠ []) : npArgmax l < l.length :=
  List.findIdx_lt_length_of_exists ⟨listMax l, listMax_mem l h, by simp⟩

/-- The element at the `np.argmax` index is the maximum. -/
lemma getD_npArgmax (l : List ℚ) (h : l ≠ []) : l.getD (npArgmax l) 0 = listMax l := by
  have hlt : npArgmax l < l.length := npArgmax_lt_length l h
  rw [List.getD_eq_getElem _ _ hlt]
  have := @List.findIdx_getElem _ (fun x => decide (x = listMax l)) l hlt
  exact of_decide_eq_true this

/-- `np.argmax` is the FIRST index attaining the maximum. -/
lemma getD_lt_npArgmax (l : List ℚ) (j : Nat) (hj : j < npArgmax l) :
    l.getD j 0 ≠ listMax l := by
  have hlt : j < l.length := lt_of_lt_of_le hj (List.findIdx_le_length _)
  have hne : j < l.length := hlt
  rw [List.getD_eq_getElem _ _ hne]
  have := @List.not_of_lt_findIdx _ (fun x => decide (x = listMax l)) l j hj
  simpa using this

/-- C1: on a model output probability vector of length 4, `predict` returns
confidence `np.max` of the vector — which is an element of the vector and an
upper bound of it — and returns the category at the `np.argmax` index of the
fixed category list, where `np.argmax` is the first index attaining the
maximum. -/
theorem predict_confidence_and_category (ps : List ℚ) (h : ps.length = 4) :
    (predictRun (.ok ps)).1.2 = some (listMax ps)
    ∧ listMax ps ∈ ps
    ∧ (∀ x ∈ ps, x ≤ listMax ps)
    ∧ npArgmax ps < 4
    ∧ (predictRun (.ok ps)).1.1 = some (categories.getD (npArgmax ps) "")
    ∧ ps.getD (npArgmax ps) 0 = listMax ps
    ∧ (∀ j, j < npArgmax ps → ps.getD j 0 ≠ listMax ps) := by
  have hne : ps ≠ [] := by
    intro hnil; rw [hnil] at h; exact absurd h (by decide)
  have hlt : npArgmax ps < 4 := by
    have := npArgmax_lt_length ps hne; omega
  have hcat : categories[npArgmax ps]? = some (categories.getD (npArgmax ps) "") := by
    have hc : npArgmax ps < categories.length := by
      simpa [categories] using hlt
    rw [List.getElem?_eq_getElem hc, List.getD_eq_getElem _ _ hc]
  have hrun : predictRun (.ok ps) =
      ((some (categories.getD (npArgmax ps) ""), some (listMax ps)), none) := by
    simp only [predictRun, hcat, List.isEmpty_eq_false.mpr hne, Bool.false_eq_true,
      if_false]
  refine ⟨by rw [hrun], listMax_mem ps hne, le_listMax ps, hlt, by rw [hrun],
    getD_npArgmax ps hne, fun j hj => getD_lt_npArgmax ps j hj⟩

/-- Witness for C1 at the concrete vector [1/10, 2/5, 2/5, 1/10]. -/
theorem predict_confidence_and_category_witness :
    (predictRun (.ok [1/10, 2/5, 2/5, 1/10])).1.2 = some (listMax [1/10, 2/5, 2/5, 1/10])
    ∧ listMax [1/10, 2/5, 2/5, 1/10] ∈ [(1 : ℚ)/10, 2/5, 2/5, 1/10]
    ∧ (∀ x ∈ [(1 : ℚ)/10, 2/5, 2/5, 1/10], x ≤ listMax [1/10, 2/5, 2/5, 1/10])
    ∧ npArgmax [1/10, 2/5, 2/5, 1/10] < 4
    ∧ (predictRun (.ok [1/10, 2/5, 2/5, 1/10])).1.1 =
        some (categories.getD (npArgmax [1/10, 2/5, 2/5, 1/10]) "")
    ∧ List.getD [(1 : ℚ)/10, 2/5, 2/5, 1/10] (npArgmax [1/10, 2/5, 2/5, 1/10]) 0 =
        listMax [1/10, 2/5, 2/5, 1/10]
    ∧ (∀ j, j < npArgmax [1/10, 2/5, 2/5, 1/10] →
        List.getD [(1 : ℚ)/10, 2/5, 2/5, 1/10] j 0 ≠ listMax [1/10, 2/5, 2/5, 1/10]) :=
  predict_confidence_and_category [1/10, 2/5, 2/5, 1/10] rfl

/-- Counting, over one duplicate-free list, the elements that lie in another
duplicate-free list is symmetric: both counts are the size of the
intersection of the two underlying finite sets. -/
lemma countP_contains_comm (l₁ l₂ : List String) (h₁ : l₁.Nodup) (h₂ : l₂.Nodup) :
    (l₁.countP fun s => l₂.contains s) = (l₂.countP fun s => l₁.contains s) := by
  have key : ∀ (a b : List String), a.Nodup →
      (a.countP fun s => b.contains s) = (a.toFinset ∩ b.toFinset).card := by
    intro a b ha
    rw [List.countP_eq_length_filter]
    have hnd : (a.filter fun s => b.contains s).Nodup := ha.filter _
    rw [← List.toFinset_card_of_nodup hnd, List.toFinset_filter]
    congr 1
    rw [← Finset.filter_mem_eq_inter]
    apply Finset.filter_congr
    intro x _
    simp [List.elem_eq_mem, List.mem_toFinset, List.contains]
  rw [key l₁ l₂ h₁, key l₂ l₁ h₂, Finset.inter_comm]

/-- On a non-empty selection the Diagnosis branch always reports the full
percentage table (whatever warning signal accompanies it). -/
lemma diagnose_scored (selected_symptoms : List String) (hne : selected_symptoms ≠ []) :
    ∃ sig, diagnose selected_symptoms =
      DiagnoseResult.scored (probabilities selected_symptoms) sig := by
  unfold diagnose
  rw [if_neg (by simp [List.isEmpty_iff, hne])]
  dsimp only
  split
  · exact ⟨_, rfl⟩
  · split
    · exact ⟨_, rfl⟩
    · exact ⟨_, rfl⟩

/-- C4: for every non-empty duplicate-free selection, the Diagnosis branch
returns the full per-condition mapping over all four conditions (never just
the winner), and each condition's percentage is
(number of that condition's listed symptoms present in the selection)
divided by the condition's total symptom count, times 100 — with no
normalisation across conditions. -/
theorem diagnose_full_percentage_mapping (selected_symptoms : List String)
    (hne : selected_symptoms ≠ []) (hnd : selected_symptoms.Nodup) :
    (∃ sig, diagnose selected_symptoms =
      DiagnoseResult.scored (probabilities selected_symptoms) sig)
    ∧ (probabilities selected_symptoms).map Prod.fst =
        ["Glioma", "Meningioma", "No Tumor", "Pituitary Tumor"]
    ∧ ∀ cond symptom_list, (cond, symptom_list) ∈ symptoms →
        (cond, (((symptom_list.countP fun s => selected_symptoms.contains s : ℕ) : ℚ) /
            (symptom_list.length : ℚ)) * 100)
          ∈ probabilities selected_symptoms := by
  refine ⟨diagnose_scored selected_symptoms hne, rfl, ?_⟩
  intro cond symptom_list hmem
  have hsl : symptom_list.Nodup := by
    fin_cases hmem <;> decide
  have hpq : probabilityOf selected_symptoms symptom_list =
      (((symptom_list.countP fun s => selected_symptoms.contains s : ℕ) : ℚ) /
        (symptom_list.length : ℚ)) * 100 := by
    unfold probabilityOf match_count
    rw [← List.countP_eq_length_filter, countP_contains_comm selected_symptoms symptom_list hnd hsl]
  rw [← hpq]
  exact List.mem_map.mpr ⟨(cond, symptom_list), hmem, rfl⟩

/-- Witness for C4 at the concrete selection ["Headaches"]. -/
theorem diagnose_full_percentage_mapping_witness :
    (∃ sig, diagnose ["Headaches"] =
      DiagnoseResult.scored (probabilities ["Headaches"]) sig)
    ∧ (probabilities ["Headaches"]).map Prod.fst =
        ["Glioma", "Meningioma", "No Tumor", "Pituitary Tumor"]
    ∧ ∀ cond symptom_list, (cond, symptom_list) ∈ symptoms →
        (cond, (((symptom_list.countP fun s => List.contains ["Headaches"] s : ℕ) : ℚ) /
            (symptom_list.length : ℚ)) * 100)
          ∈ probabilities ["Headaches"] :=
  diagnose_full_percentage_mapping ["Headaches"] (by decide) (by decide)

/-- C7: the scorer is a pure function of the selection as a set: permuting
the selected symptoms leaves the per-condition percentage mapping and the
whole Diagnosis outcome unchanged, and a repeated call returns the identical
result (the embedding is a pure function, so determinism is definitional). -/
theorem diagnose_perm_invariant (s₁ s₂ : List String) (hp : s₁.Perm s₂) :
    probabilities s₁ = probabilities s₂
    ∧ diagnose s₁ = diagnose s₂
    ∧ diagnose s₁ = diagnose s₁ := by
  have hm : ∀ sl : List String, match_count s₁ sl = match_count s₂ sl := by
    intro sl
    unfold match_count
    rw [← List.countP_eq_length_filter, ← List.countP_eq_length_filter]
    exact hp.countP_eq _
  have hprob : probabilities s₁ = probabilities s₂ := by
    unfold probabilities probabilityOf
    simp only [hm]
  refine ⟨hprob, ?_, rfl⟩
  unfold diagnose
  rw [hp.isEmpty_eq, hprob]

/-- Witness for C7 at the concrete transposed selections. -/
theorem diagnose_perm_invariant_witness :
    probabilities ["Headaches", "Seizures"] = probabilities ["Seizures", "Headaches"]
    ∧ diagnose ["Headaches", "Seizures"] = diagnose ["Seizures", "Headaches"]
    ∧ diagnose ["Headaches", "Seizures"] = diagnose ["Headaches", "Seizures"] :=
  diagnose_perm_invariant _ _ (List.Perm.swap "Seizures" "Headaches" [])

/-- C6: an empty symptom selection is rejected with the
"Please select at least one symptom." signal before any per-condition
percentage is computed (the `selectAtLeastOne` outcome carries no
percentages). -/
theorem diagnose_empty_selection_rejected :
    diagnose [] = DiagnoseResult.selectAtLeastOne := rfl

/-- Evaluation of the percentage table on the selection
{"Headaches", "Seizures"}. -/
lemma probabilities_headaches_seizures :
    probabilities ["Headaches", "Seizures"] =
      [("Glioma", 200 / 7), ("Meningioma", 200 / 7),
       ("No Tumor", 0), ("Pituitary Tumor", 100 / 7)] := by
  simp [probabilities, probabilityOf, match_count, symptoms]
  norm_num

/-- C5: selecting exactly {"Headaches", "Seizures"} gives Glioma and
Meningioma the equal maximal percentage 200/7 %, so the branch emits the
ambiguous "clash — consult a doctor" warning rather than a single winner. -/
theorem diagnose_headaches_seizures_tie :
    diagnose ["Headaches", "Seizures"] =
      DiagnoseResult.scored
        [("Glioma", 200 / 7), ("Meningioma", 200 / 7),
         ("No Tumor", 0), ("Pituitary Tumor", 100 / 7)]
        DiagnosisSignal.clash := by
  have h1 : listMax [200 / 7, 200 / 7, 0, 100 / 7] = 200 / 7 := by
    norm_num [listMax, max_eq_left, max_eq_right]
  simp [diagnose, probabilities_headaches_seizures, h1]

/-- C2 (counterexample to the spec's "distinct no-match signal"): selecting
only "Fever", which is on no condition's list, scores every condition at 0%,
but the branch emits the `clash` warning, not the `noMatch` one: all four
conditions tie at the maximum 0, so the `count > 1` test fires before the
`max_prob == 0` test ever runs. The `elif max_prob == 0` branch of
src/app.py line 207 is unreachable. -/
theorem diagnose_zero_match_emits_clash :
    diagnose ["Fever"] =
      DiagnoseResult.scored
        [("Glioma", 0), ("Meningioma", 0), ("No Tumor", 0), ("Pituitary Tumor", 0)]
        DiagnosisSignal.clash := by
  have h0 : probabilities ["Fever"] =
      [("Glioma", 0), ("Meningioma", 0), ("No Tumor", 0), ("Pituitary Tumor", 0)] := by
    simp [probabilities, probabilityOf, match_count, symptoms]
  have h1 : listMax [(0 : ℚ), 0, 0, 0] = 0 := by
    norm_num [listMax]
  simp [diagnose, h0, h1]

/-- An 8-bit channel value divided by 255 lies in the unit interval. -/
lemma div255_mem_unit (v : Fin 256) : 0 ≤ ((v : ℕ) : ℚ) / 255 ∧ ((v : ℕ) : ℚ) / 255 ≤ 1 := by
  constructor
  · positivity
  · rw [div_le_one (by norm_num)]
    exact_mod_cast Nat.le_of_lt_succ v.isLt

/-- C3: for every decoded image — any mode, any dimensions — the
preprocessor's output is exactly the rank-4 [1, 150, 150, 3] tensor whose
elements all lie in [0, 1], and it is the RGB-forced, 150x150-resized,
255-divided image with a leading batch dimension of size 1, in that order. -/
theorem preprocess_image_shape_range (image : PILImage) :
    hasShape4 (preprocess_image image) 1 150 150 3 = true
    ∧ allIn01 (preprocess_image image) = true
    ∧ preprocess_image image = [npArrayDiv255 (resize (convertRGB image) 150 150)] := by
  refine ⟨?_, ?_, rfl⟩
  · simp [hasShape4, preprocess_image, npArrayDiv255, resize, List.all_eq_true,
      List.mem_map, List.mem_range]
  · simp only [allIn01, preprocess_image, List.all_cons, List.all_nil, Bool.and_true,
      List.all_eq_true, Bool.and_eq_true, decide_eq_true_eq]
    intro r hr q hq v hv
    simp only [npArrayDiv255, List.mem_map, List.mem_range] at hr
    obtain ⟨yy, hyy, rfl⟩ := hr
    simp only [List.mem_map, List.mem_range] at hq
    obtain ⟨xx, hxx, rfl⟩ := hq
    simp only [List.mem_cons, List.not_mem_nil, or_false] at hv
    rcases hv with rfl | rfl | rfl
    · exact div255_mem_unit _
    · exact div255_mem_unit _
    · exact div255_mem_unit _

/-- C8: when inference raises, `predict` catches the error, reports it, and
returns `(None, None)`; the Tumor Detection branch then runs none of the
downstream stages (no prediction display, no LIME explanation, no
encyclopedia lookup, no speech). -/
theorem predict_error_caught_and_skips (e : String) :
    predictRun (.error e) = ((none, none), some ("Error in prediction: " ++ e))
    ∧ tumorDetectionStages (.error e) = [] :=
  ⟨rfl, rfl⟩

/-- C9: `is_valid_mri` never raises past its boundary (it is a total
function): it accepts exactly when the DICOM parse yields modality "MR", or
when the DICOM try block raises and the generic image decode succeeds; in
every other case it rejects, and the warning is emitted exactly when both
decodes fail. -/
theorem is_valid_mri_boundary (file : UploadFile) :
    ((is_valid_mri file).1 = true ↔
      file.dicomModality = Except.ok "MR"
      ∨ ((∃ e, file.dicomModality = Except.error e) ∧ file.imageDecode = Except.ok ()))
    ∧ ((is_valid_mri file).2 ≠ none ↔
      (∃ e, file.dicomModality = Except.error e) ∧ ∃ e, file.imageDecode = Except.error e) := by
  obtain ⟨dm, idec⟩ := file
  cases dm with
  | ok m =>
    cases idec with
    | ok u => cases u; by_cases hm : m = "MR" <;> simp [is_valid_mri, hm]
    | error e2 => by_cases hm : m = "MR" <;> simp [is_valid_mri, hm]
  | error e1 =>
    cases idec with
    | ok u => cases u; simp [is_valid_mri]
    | error e2 => simp [is_valid_mri]

/-- Resizing after the RGB retag samples the same channel data. -/
lemma resize_convertRGB_px (image : PILImage) (w h : Nat) :
    (resize (convertRGB image) w h).px = (resize image w h).px := by
  unfold convertRGB
  split <;> rfl

/-- `entry3` of the raw numpy array reads the pixel back. -/
lemma entry3_raw (image : PILImage) (y x : Nat) (k : Fin 3)
    (hy : y < image.height) (hx : x < image.width) :
    entry3 (npArrayRaw image) y x k = ((image.px x y k : ℕ) : ℚ) := by
  have hrow : (npArrayRaw image).getD y [] =
      (List.range image.width).map (fun xx =>
        [((image.px xx y 0 : ℕ) : ℚ), ((image.px xx y 1 : ℕ) : ℚ),
         ((image.px xx y 2 : ℕ) : ℚ)]) := by
    simp only [npArrayRaw]
    rw [List.getD_eq_getElem _ _ (by simp [hy])]
    simp [List.getElem_map, List.getElem_range]
  have hcell : ((npArrayRaw image).getD y []).getD x [] =
      [((image.px x y 0 : ℕ) : ℚ), ((image.px x y 1 : ℕ) : ℚ),
       ((image.px x y 2 : ℕ) : ℚ)] := by
    rw [hrow, List.getD_eq_getElem _ _ (by simp [hx])]
    simp [List.getElem_map, List.getElem_range]
  unfold entry3
  rw [hcell]
  fin_cases k <;> rfl

/-- `entry3` of the scaled numpy array reads the pixel divided by 255. -/
lemma entry3_div255 (image : PILImage) (y x : Nat) (k : Fin 3)
    (hy : y < image.height) (hx : x < image.width) :
    entry3 (npArrayDiv255 image) y x k = ((image.px x y k : ℕ) : ℚ) / 255 := by
  have hrow : (npArrayDiv255 image).getD y [] =
      (List.range image.width).map (fun xx =>
        [((image.px xx y 0 : ℕ) : ℚ) / 255, ((image.px xx y 1 : ℕ) : ℚ) / 255,
         ((image.px xx y 2 : ℕ) : ℚ) / 255]) := by
    simp only [npArrayDiv255]
    rw [List.getD_eq_getElem _ _ (by simp [hy])]
    simp [List.getElem_map, List.getElem_range]
  have hcell : ((npArrayDiv255 image).getD y []).getD x [] =
      [((image.px x y 0 : ℕ) : ℚ) / 255, ((image.px x y 1 : ℕ) : ℚ) / 255,
       ((image.px x y 2 : ℕ) : ℚ) / 255] := by
    rw [hrow, List.getD_eq_getElem _ _ (by simp [hx])]
    simp [List.getElem_map, List.getElem_range]
  unfold entry3
  rw [hcell]
  fin_cases k <;> rfl

/-- C10: the LIME explainer evaluates the model on differently-scaled input
than the classifier: wherever the (shared) 150x150 resized image has a
nonzero channel value, that entry of `explain_input` is the raw 8-bit value
while the corresponding entry of the classifier's preprocessed tensor is
the value divided by 255, so the two tensors differ. -/
theorem explain_input_unscaled_differs (image : PILImage) (x y : Nat) (k : Fin 3)
    (hx : x < 150) (hy : y < 150)
    (hnz : (resize image 150 150).px x y k ≠ 0) :
    preprocess_image image = [npArrayDiv255 (resize (convertRGB image) 150 150)]
    ∧ explain_input image ≠ npArrayDiv255 (resize (convertRGB image) 150 150) := by
  refine ⟨rfl, ?_⟩
  intro heq
  have h1 : entry3 (explain_input image) y x k =
      (((resize image 150 150).px x y k : ℕ) : ℚ) :=
    entry3_raw (resize image 150 150) y x k hy hx
  have h2 : entry3 (npArrayDiv255 (resize (convertRGB image) 150 150)) y x k =
      (((resize image 150 150).px x y k : ℕ) : ℚ) / 255 := by
    rw [entry3_div255 (resize (convertRGB image) 150 150) y x k hy hx,
      resize_convertRGB_px]
  have hv : (((resize image 150 150).px x y k : ℕ) : ℚ) =
      (((resize image 150 150).px x y k : ℕ) : ℚ) / 255 := by
    have hentry : entry3 (explain_input image) y x k =
        entry3 (npArrayDiv255 (resize (convertRGB image) 150 150)) y x k := by
      rw [heq]
    rw [h1, h2] at hentry
    exact hentry
  have hv0 : (((resize image 150 150).px x y k : ℕ) : ℚ) ≠ 0 := by
    have hval : ((resize image 150 150).px x y k : ℕ) ≠ 0 := by
      simpa [Fin.ext_iff] using hnz
    exact_mod_cast hval
  rw [eq_div_iff (by norm_num : (255 : ℚ) ≠ 0)] at hv
  have h254 : (((resize image 150 150).px x y k : ℕ) : ℚ) * 254 = 0 := by linarith
  rcases mul_eq_zero.mp h254 with h | h
  · exact hv0 h
  · norm_num at h

/-- Witness for C10 at the constant-7 test image, entry (0, 0, channel 0). -/
theorem explain_input_unscaled_differs_witness :
    preprocess_image constImage = [npArrayDiv255 (resize (convertRGB constImage) 150 150)]
    ∧ explain_input constImage ≠ npArrayDiv255 (resize (convertRGB constImage) 150 150) :=
  explain_input_unscaled_differs constImage 0 0 0 (by decide) (by decide) (by decide)

end BrainTumorApp
